import Mathlib

/-!
Verification development for the MadixOutdoors 3D website repository.

The file shallowly embeds the client-side logic that the specification talks
about: the gzipped GLTF loading pipeline (src/hooks/useGzipGLTF.js and the
HEAD-probe loader useOptimizedGLTF), the scroll-to-section mapping and scrub
dispatching (src/components/ScrollSections.js), the per-frame action scrubbing
(SceneContent in src/App.js), the camera pose queue (createCameraQueue), the
camera rig smoothing (src/components/CameraRig.js), and the overlay
visibility logic (AnnotationSystem.js / AnnotationOverlays.js).

JavaScript numbers are modelled as rationals where the code only compares and
does field arithmetic, and as reals where transcendental functions (sqrt, exp)
appear.  Fallible operations (fetch, pako.inflate, GLTFLoader) are modelled as
Except-valued oracle functions supplied by an environment record.
-/

namespace Madix

/-! ### Gzip GLTF loading pipeline

Embeds src/hooks/useGzipGLTF.js.  A load environment carries the browser
facilities the hook calls into: fetch, pako.inflate and the GLTF parser
(GLTFLoader success/error callbacks collapsed to an Except).  The hook body is
a pure function from the environment to the cache entry it stores, paired with
the list of URLs it fetched during the run. -/

abbrev Err := String

structure Response where
  ok : Bool
  statusText : String
  body : List Nat
deriving Repr, DecidableEq

structure GLTF where
  data : List Nat
deriving Repr, DecidableEq

structure LoadEnv where
  fetchResp : String → Except Err Response
  inflate : List Nat → Except Err (List Nat)
  parse : List Nat → Except Err GLTF

/-- Gzip magic check of useGzipGLTF: view[0] === 0x1f && view[1] === 0x8b. -/
def isGzipped (bytes : List Nat) : Bool :=
  bytes.get? 0 == some 0x1f && bytes.get? 1 == some 0x8b

/-- Decompression branch of useGzipGLTF: inflate when the magic bytes match,
otherwise use the fetched bytes as-is. -/
def decompressBody (env : LoadEnv) (bytes : List Nat) : Except Err (List Nat) :=
  if isGzipped bytes then env.inflate bytes else Except.ok bytes

/-- Entry stored in the module-level gltfCache: { gltf, error }. -/
structure CacheEntry where
  gltf : Option GLTF
  error : Option Err
deriving Repr, DecidableEq

/-- One uncached run of loadGzipGLTF for a URL: fetch, gzip check, inflate,
parse.  Returns the cache entry the run records together with the list of URLs
fetched during the run. -/
def loadGzipOnce (env : LoadEnv) (url : String) : CacheEntry × List String :=
  match env.fetchResp url with
  | Except.error e => ({ gltf := none, error := some e }, [url])
  | Except.ok resp =>
    if resp.ok = false then
      ({ gltf := none,
         error := some ("Failed to fetch " ++ url ++ ": " ++ resp.statusText) }, [url])
    else
      match decompressBody env resp.body with
      | Except.error e => ({ gltf := none, error := some e }, [url])
      | Except.ok d =>
        match env.parse d with
        | Except.error e => ({ gltf := none, error := some e }, [url])
        | Except.ok g => ({ gltf := some g, error := none }, [url])

abbrev Cache := List (String × CacheEntry)

/-- One invocation of the useGzipGLTF effect against the module cache: a hit
returns the cached entry, fetching nothing and leaving the cache unchanged; a
miss performs the load and records its result under the URL. -/
def useGzipGLTFStep (cache : Cache) (env : LoadEnv) (url : String) :
    CacheEntry × Cache × List String :=
  match cache.lookup url with
  | some e => (e, cache, [])
  | none =>
    let r := loadGzipOnce env url
    (r.1, (url, r.1) :: cache, r.2)

/-- Final-URL choice of useOptimizedGLTF: HEAD-probe originalUrl + ".gz"; use
the gzipped URL when the probe is ok, the original URL when the probe is
non-ok or throws. -/
def tryGzippedVersion (probe : Except Err Response) (originalUrl : String) : String :=
  match probe with
  | Except.ok response => if response.ok then originalUrl ++ ".gz" else originalUrl
  | Except.error _ => originalUrl

/-- Concrete environment for the C1 counterexample: the server answers the
gzipped URL with gzip-tagged bytes but decompression fails. -/
def c1Env : LoadEnv :=
  { fetchResp := fun u =>
      if u = "/Tent3.glb.gz" then
        Except.ok { ok := true, statusText := "OK", body := [0x1f, 0x8b, 8, 0] }
      else
        Except.ok { ok := true, statusText := "OK", body := [0x67, 0x6c, 0x54, 0x46] }
  , inflate := fun _ => Except.error ("incorrect header check")
  , parse := fun bs => Except.ok { data := bs } }

/-! ### Section progress (progressFor in ScrollSections.js / App.js)

getBoundingClientRect is modelled by a rational rectangle; a missing element
(null ref) is the none case.  The viewport height is a parameter. -/

structure DOMRect where
  top : ℚ
  bottom : ℚ
  height : ℚ
deriving Repr, DecidableEq

/-- progressFor: 0 for a missing element or one entirely outside the viewport,
otherwise -top/height clamped into [0,1], with height 1 substituted for a zero
height (JS rect.height || 1). -/
def progressFor (el : Option DOMRect) (vh : ℚ) : ℚ :=
  match el with
  | none => 0
  | some rect =>
    if rect.bottom ≤ 0 ∨ rect.top ≥ vh then 0
    else
      let h := if rect.height = 0 then 1 else rect.height
      let p := -rect.top / h
      max 0 (min 1 p)

/-! ### Current-section computation and sectionChange dispatch
(onScroll in ScrollSections.js) -/

/-- Loop predicate of the section scan: p[i] > 0 && p[i] <= 1. -/
def sectionQualifies (p : ℕ → ℚ) (i : ℕ) : Bool :=
  decide (0 < p i ∧ p i ≤ 1)

/-- The for-loop with break over sections 1..8: the first qualifying section
number, 0 when none qualifies. -/
def currentSectionOf (p : ℕ → ℚ) : ℕ :=
  (([1, 2, 3, 4, 5, 6, 7, 8].find? (sectionQualifies p)).getD 0)

/-- The sectionChange bookkeeping of one onScroll run: the new lastSection and
the dispatched sectionChange payload (none when nothing is dispatched). -/
def sectionStep (lastSection : ℕ) (p : ℕ → ℚ) : ℕ × Option ℕ :=
  let c := currentSectionOf p
  (c, if c ≠ lastSection then some c else none)

/-! ### Scrub dispatch decision at the end of onScroll (ScrollSections.js
lines 580-588) and the frame-loop application of scrub entries (SceneContent,
App.js lines 418-444). -/

structure ScrubEntry where
  name : String
  t : ℚ
deriving Repr, DecidableEq

inductive ScrubDispatch where
  | scrubClips (entries : List ScrubEntry) (exclusive : Bool)
  | clearScrub
  | noDispatch
deriving Repr, DecidableEq

/-- The dispatch decision: section 8 leaves clip driving to its timer runner;
a nonempty scrub list is sent with exclusive = (currentSection !== 6);
an empty list dispatches clearScrub. -/
def sendScrubs (currentSection : ℕ) (scrubs : List ScrubEntry) : ScrubDispatch :=
  if currentSection = 8 then ScrubDispatch.noDispatch
  else if scrubs.length ≠ 0 then ScrubDispatch.scrubClips scrubs (currentSection ≠ 6)
  else ScrubDispatch.clearScrub

/-- THREE.MathUtils.clamp(value, min, max) = Math.max(min, Math.min(max, value)). -/
def clampQ (x lo hi : ℚ) : ℚ := max lo (min hi x)

/-- State of one THREE.AnimationAction as far as the frame loop touches it. -/
structure AnimAction where
  enabled : Bool
  weight : ℚ
  paused : Bool
  playing : Bool
  time : ℚ
  duration : ℚ
deriving Repr, DecidableEq

/-- The actions record: clip name to action, none for an unknown name. -/
abbrev Actions := String → Option AnimAction

/-- Exclusive preamble of the frame loop: every action gets enabled = false
and weight = 0. -/
def disableAll (acts : Actions) : Actions :=
  fun n => (acts n).map (fun a => { a with enabled := false, weight := 0 })

/-- The forEach body over one scrub entry: an unknown action name is skipped;
otherwise the action is enabled, paused, played and its time set to
clamp(t,0,1) * clip.duration. -/
def applyEntry (acts : Actions) (e : ScrubEntry) : Actions :=
  match acts e.name with
  | none => acts
  | some a =>
    let tt := clampQ e.t 0 1
    fun n =>
      if n = e.name then
        some { a with enabled := true, weight := 1, paused := true, playing := true,
                      time := tt * a.duration }
      else acts n

/-- The scroll-controlled branch of the useFrame body: optional exclusive
disable pass, then the entries applied in order. -/
def applyScrub (exclusive : Bool) (entries : List ScrubEntry) (acts : Actions) : Actions :=
  let acts0 := if exclusive then disableAll acts else acts
  entries.foldl applyEntry acts0

/-- Concrete progress snapshot used by witnesses: only section 3 is in view. -/
def witnessProgress : ℕ → ℚ := fun i => if i = 3 then 1/2 else 0

/-- Concrete one-action record used by witnesses: a 2-second Door clip. -/
def doorActs : Actions := fun n =>
  if n = "Door" then
    some { enabled := false, weight := 0, paused := false, playing := false,
           time := 0, duration := 2 }
  else none

/-- Concrete one-action record used by witnesses: the Side clip held open. -/
def sideActs : Actions := fun n =>
  if n = "Side" then
    some { enabled := true, weight := 1, paused := true, playing := true,
           time := 1, duration := 1 }
  else none

/-! ### Camera pose queue (createCameraQueue / poseDistance, ScrollSections.js)

Coordinates are reals (Euclidean distance needs sqrt); the JS Infinity that
poseDistance returns for a missing pose is the top element of EReal, so that
clamp(Infinity * 1.2, 0.6, 4.0) = 4.0 falls out of the same definition the
finite case uses. -/

structure Vec3 where
  x : ℝ
  y : ℝ
  z : ℝ

noncomputable def Vec3.distanceTo (a b : Vec3) : ℝ :=
  Real.sqrt ((a.x - b.x) ^ 2 + (a.y - b.y) ^ 2 + (a.z - b.z) ^ 2)

structure Pose where
  position : Vec3
  target : Vec3

noncomputable def CAM_EPS : ℝ := 0.005
noncomputable def CAM_MIN_DUR : ℝ := 0.6
noncomputable def CAM_MAX_DUR : ℝ := 4.0
noncomputable def CAM_DIST_TO_DUR : ℝ := 1.2

/-- poseDistance: Infinity when either pose is missing, otherwise the sum of
the position distance and the target distance. -/
noncomputable def poseDistance (a b : Option Pose) : EReal :=
  match a, b with
  | some a, some b =>
    ((Vec3.distanceTo a.position b.position + Vec3.distanceTo a.target b.target : ℝ) : EReal)
  | _, _ => ⊤

/-- THREE.MathUtils.clamp on extended reals. -/
noncomputable def eclamp (x lo hi : EReal) : EReal := max lo (min hi x)

structure PendingPose where
  pose : Pose
  baseDuration : Option ℝ
  immediate : Bool

structure SentPose where
  pose : Pose
  duration : EReal

structure CamQueueState where
  lastSent : Option SentPose
  pending : Option PendingPose
  raf : Bool

structure CamPoseEvent where
  position : Vec3
  target : Vec3
  duration : EReal
  immediate : Bool

/-- queue(pose, opts): overwrite the pending pose and make sure one flush is
scheduled. -/
def queuePose (s : CamQueueState) (pose : Pose) (baseDuration : Option ℝ)
    (immediate : Bool) : CamQueueState :=
  { s with pending := some { pose := pose, baseDuration := baseDuration, immediate := immediate },
           raf := true }

open Classical in
/-- flush: consume the pending pose; dispatch a setCameraPose event exactly
when nothing was sent yet or the pose moved by more than CAM_EPS, with
duration 0 for an immediate dispatch and max(baseDuration, clamp(delta * 1.2,
0.6, 4.0)) otherwise.  Returns the new queue state and the dispatched event. -/
noncomputable def flush (s : CamQueueState) : CamQueueState × Option CamPoseEvent :=
  match s.pending with
  | none => ({ s with raf := false }, none)
  | some pnd =>
    let baseDuration : ℝ := pnd.baseDuration.getD 2
    let delta : EReal := poseDistance (s.lastSent.map SentPose.pose) (some pnd.pose)
    if s.lastSent = none ∨ ((CAM_EPS : ℝ) : EReal) < delta then
      let durFromDelta := eclamp (delta * ((CAM_DIST_TO_DUR : ℝ) : EReal))
        ((CAM_MIN_DUR : ℝ) : EReal) ((CAM_MAX_DUR : ℝ) : EReal)
      let finalDuration := max ((baseDuration : ℝ) : EReal) durFromDelta
      ({ lastSent := some { pose := pnd.pose, duration := finalDuration },
         pending := none, raf := false },
       some { position := pnd.pose.position, target := pnd.pose.target,
              duration := if pnd.immediate then (0 : EReal) else finalDuration,
              immediate := pnd.immediate })
    else
      ({ s with pending := none, raf := false }, none)

/-! ### Camera rig smoothing (useFrame body of CameraRig.js) -/

noncomputable def CAMERA_SMOOTH_DEFAULT : ℝ := 1.2

/-- Delta-time clamp: Math.min(0.033, Math.max(0.001, dt)). -/
noncomputable def clampedDt (dt : ℝ) : ℝ := min 0.033 (max 0.001 dt)

/-- state.current.tau || CAMERA_SMOOTH_DEFAULT (0 is the falsy number). -/
noncomputable def effectiveTau (tau : ℝ) : ℝ :=
  if tau = 0 then CAMERA_SMOOTH_DEFAULT else tau

noncomputable def baseFactor (dt tau : ℝ) : ℝ :=
  1 - Real.exp (-(clampedDt dt) / effectiveTau tau)

open Classical in
/-- Adaptive damping: halve the factor within 0.1 of the target. -/
noncomputable def adaptiveFactor (dt tau maxDistance : ℝ) : ℝ :=
  if maxDistance > 0.1 then baseFactor dt tau else baseFactor dt tau * 0.5

/-- Math.min(adaptiveFactor, 0.15). -/
noncomputable def smoothingFactor (dt tau maxDistance : ℝ) : ℝ :=
  min (adaptiveFactor dt tau maxDistance) 0.15

/-- THREE.Vector3.lerp: this + (v - this) * alpha, componentwise. -/
def Vec3.lerp (a b : Vec3) (t : ℝ) : Vec3 :=
  { x := a.x + (b.x - a.x) * t
  , y := a.y + (b.y - a.y) * t
  , z := a.z + (b.z - a.z) * t }

/-- Time constant installed by the setCameraPose handler:
Math.max(0.2, duration / 2.5). -/
noncomputable def onSetPoseTau (duration : ℝ) : ℝ := max 0.2 (duration / 2.5)

/-- The idle camera pose of the scroll orchestration, used by witnesses. -/
noncomputable def idlePose : Pose :=
  { position := { x := 3, y := 1.6, z := 3.4 }, target := { x := 0, y := 0.5, z := 0 } }

/-- Witness fixture: an immediate pending idle pose. -/
noncomputable def witnessPending : PendingPose :=
  { pose := idlePose, baseDuration := some 0, immediate := true }

/-- Witness fixture: fresh queue state holding the pending idle pose. -/
noncomputable def witnessQueueState : CamQueueState :=
  { lastSent := none, pending := some witnessPending, raf := true }

/-- Witness fixture: a drained camera queue. -/
def emptyQueueState : CamQueueState :=
  { lastSent := none, pending := none, raf := false }

/-- Witness fixture: a unit pose along x. -/
def poseA : Pose :=
  { position := { x := 1, y := 0, z := 0 }, target := { x := 0, y := 0, z := 0 } }

/-- Witness fixture: a unit pose along y. -/
def poseB : Pose :=
  { position := { x := 0, y := 1, z := 0 }, target := { x := 0, y := 0, z := 0 } }

/-! ### Annotation system and 2D overlay
(AnnotationSystem.js useFrame body, AnnotationOverlays.js render)

The camera projection (worldPosition.clone().project(camera)) is an oracle
function from world space to normalized device coordinates; everything after
it is field arithmetic and comparisons, modelled over the rationals.  The
names below use "Anno" for the annotation records of the two components. -/

structure Vec3Q where
  x : ℚ
  y : ℚ
  z : ℚ
deriving Repr, DecidableEq

structure Anno where
  id : String
  worldPosition : Vec3Q
  text : String
  pos : String
deriving Repr, DecidableEq

structure ScreenPos where
  x : ℚ
  y : ℚ
  z : ℚ
deriving Repr, DecidableEq

structure UpdatedAnno where
  base : Anno
  screenPosition : Option ScreenPos
  visible : Bool
deriving Repr, DecidableEq

/-- Per-frame update of one annotation record: project the world position,
convert to pixels, and mark visible exactly when the device z is strictly
between -1 and 1 (z < 1 && z > -1). -/
def updateAnno (project : Vec3Q → Vec3Q) (innerWidth innerHeight : ℚ) (a : Anno) :
    UpdatedAnno :=
  let screenPos := project a.worldPosition
  let x := (screenPos.x * (1/2 : ℚ) + (1/2 : ℚ)) * innerWidth
  let y := (screenPos.y * (-(1/2) : ℚ) + (1/2 : ℚ)) * innerHeight
  let z := screenPos.z
  { base := a
  , screenPosition := some { x := x, y := y, z := z }
  , visible := decide (z < 1 ∧ z > -1) }

/-- The overlay's rendered list: nothing at all in section 7, otherwise the
records that are visible and carry a screen position (the render body returns
null for the rest). -/
def renderedAnnos (currentSection : ℕ) (anns : List UpdatedAnno) : List UpdatedAnno :=
  if currentSection = 7 then []
  else anns.filter (fun a => a.visible && a.screenPosition.isSome)

end Madix

namespace Madix

/-! ## Theorems -/

/-- C2 (confirmed): progressFor maps scroll position to a normalized progress
in [0, 1]; it returns 0 for an element whose rectangle is entirely outside the
viewport (bottom <= 0 or top >= viewport height), and otherwise returns
max(0, min(1, -top/height)) with height 1 substituted for a zero height, so no
division by zero occurs. -/
theorem progressFor_spec (vh : ℚ) (el : Option DOMRect) (r₀ r₁ : DOMRect)
    (h0 : r₀.bottom ≤ 0 ∨ r₀.top ≥ vh) (h1 : 0 < r₁.bottom) (h2 : r₁.top < vh) :
    (0 ≤ progressFor el vh ∧ progressFor el vh ≤ 1)
    ∧ progressFor (some r₀) vh = 0
    ∧ progressFor (some r₁) vh
        = max 0 (min 1 (-r₁.top / (if r₁.height = 0 then 1 else r₁.height))) := by
  refine ⟨?_, ?_, ?_⟩
  · cases el with
    | none => simp [progressFor]
    | some rect =>
      simp only [progressFor]
      split_ifs with h hh
      · norm_num
      · exact ⟨le_max_left _ _, max_le (by norm_num) (min_le_left _ _)⟩
      · exact ⟨le_max_left _ _, max_le (by norm_num) (min_le_left _ _)⟩
  · simp only [progressFor]
    rw [if_pos h0]
  · simp only [progressFor]
    rw [if_neg (by push_neg; exact ⟨h1, h2⟩)]

/-- C2 witness at a concrete viewport and rectangles. -/
theorem progressFor_spec_witness :
    ((0 : ℚ) ≤ progressFor (some { top := -(1/2), bottom := 3/2, height := 2 }) 1
      ∧ progressFor (some { top := -(1/2), bottom := 3/2, height := 2 }) 1 ≤ 1)
    ∧ progressFor (some { top := 5, bottom := -1, height := 2 }) 1 = 0
    ∧ progressFor (some { top := -(1/2), bottom := 3/2, height := 2 }) 1
        = max 0 (min 1 (-(-(1/2) : ℚ) / (if (2 : ℚ) = 0 then 1 else 2))) :=
  progressFor_spec 1 (some { top := -(1/2), bottom := 3/2, height := 2 })
    { top := 5, bottom := -1, height := 2 } { top := -(1/2), bottom := 3/2, height := 2 }
    (Or.inl (by norm_num)) (by norm_num) (by norm_num)

/-- C7 (confirmed): an annotation record is marked visible exactly when its
projected normalized device z lies strictly between -1 and 1, the overlay
renders exactly the visible records that carry a screen position, and renders
nothing at all while the current section is 7. -/
theorem anno_visibility_spec (project : Vec3Q → Vec3Q) (w h : ℚ) (a : Anno)
    (cs : ℕ) (anns : List UpdatedAnno) (u : UpdatedAnno) :
    ((updateAnno project w h a).visible = true ↔
      ((project a.worldPosition).z < 1 ∧ (-1 : ℚ) < (project a.worldPosition).z))
    ∧ (updateAnno project w h a).screenPosition
        = some { x := ((project a.worldPosition).x * (1/2 : ℚ) + (1/2 : ℚ)) * w
               , y := ((project a.worldPosition).y * (-(1/2) : ℚ) + (1/2 : ℚ)) * h
               , z := (project a.worldPosition).z }
    ∧ (u ∈ renderedAnnos cs anns ↔
        (cs ≠ 7 ∧ u ∈ anns ∧ u.visible = true ∧ u.screenPosition.isSome = true))
    ∧ renderedAnnos 7 anns = [] := by
  refine ⟨?_, rfl, ?_, by simp [renderedAnnos]⟩
  · simp [updateAnno]
  · by_cases hcs : cs = 7
    · subst hcs
      simp [renderedAnnos]
    · simp [renderedAnnos, hcs, List.mem_filter, and_comm, and_left_comm]

/-- C8 (confirmed): useGzipGLTF inflates the fetched buffer iff its first two
bytes are 0x1f 0x8b and hands raw bytes through otherwise, so a server that
serves the asset uncompressed under the .gz URL yields the same loaded result
as one that serves it gzipped. -/
theorem gzip_magic_roundtrip_spec
    (inf : List Nat → Except Err (List Nat)) (par : List Nat → Except Err GLTF)
    (fg fd : String → Except Err Response) (url : String) (g d : List Nat) (sg sd : String)
    (hg : fg url = Except.ok { ok := true, statusText := sg, body := g })
    (hd : fd url = Except.ok { ok := true, statusText := sd, body := d })
    (hmag : isGzipped g = true) (hnot : isGzipped d = false)
    (hinf : inf g = Except.ok d) :
    (∀ bytes, isGzipped bytes = true →
        decompressBody { fetchResp := fg, inflate := inf, parse := par } bytes = inf bytes)
    ∧ (∀ bytes, isGzipped bytes = false →
        decompressBody { fetchResp := fg, inflate := inf, parse := par } bytes
          = Except.ok bytes)
    ∧ loadGzipOnce { fetchResp := fg, inflate := inf, parse := par } url
        = loadGzipOnce { fetchResp := fd, inflate := inf, parse := par } url := by
  refine ⟨?_, ?_, ?_⟩
  · intro bytes hb
    simp [decompressBody, hb]
  · intro bytes hb
    simp [decompressBody, hb]
  · simp [loadGzipOnce, hg, hd, decompressBody, hmag, hnot, hinf]

/-- C8 witness: a concrete gzipped body, its concrete inflated content, and
the two servers. -/
theorem gzip_magic_roundtrip_spec_witness :
    (∀ bytes, isGzipped bytes = true →
        decompressBody
          { fetchResp := fun _ => Except.ok { ok := true, statusText := "OK", body := [31, 139, 1] }
          , inflate := fun b => if b = [31, 139, 1] then Except.ok [103, 108] else Except.error ("bad")
          , parse := fun bs => Except.ok { data := bs } } bytes
          = (if bytes = [31, 139, 1] then Except.ok [103, 108] else Except.error ("bad")))
    ∧ (∀ bytes, isGzipped bytes = false →
        decompressBody
          { fetchResp := fun _ => Except.ok { ok := true, statusText := "OK", body := [31, 139, 1] }
          , inflate := fun b => if b = [31, 139, 1] then Except.ok [103, 108] else Except.error ("bad")
          , parse := fun bs => Except.ok { data := bs } } bytes
          = Except.ok bytes)
    ∧ loadGzipOnce
        { fetchResp := fun _ => Except.ok { ok := true, statusText := "OK", body := [31, 139, 1] }
        , inflate := fun b => if b = [31, 139, 1] then Except.ok [103, 108] else Except.error ("bad")
        , parse := fun bs => Except.ok { data := bs } } "u"
        = loadGzipOnce
            { fetchResp := fun _ => Except.ok { ok := true, statusText := "OK", body := [103, 108] }
            , inflate := fun b => if b = [31, 139, 1] then Except.ok [103, 108] else Except.error ("bad")
            , parse := fun bs => Except.ok { data := bs } } "u" :=
  gzip_magic_roundtrip_spec
    (fun b => if b = [31, 139, 1] then Except.ok [103, 108] else Except.error ("bad"))
    (fun bs => Except.ok { data := bs })
    (fun _ => Except.ok { ok := true, statusText := "OK", body := [31, 139, 1] })
    (fun _ => Except.ok { ok := true, statusText := "OK", body := [103, 108] })
    "u" [31, 139, 1] [103, 108] "OK" "OK" rfl rfl (by decide) (by decide) (by simp)

/-- C9 (confirmed): the module-level gltfCache caches results permanently per
URL: a cached entry (error or success) is returned as-is with no fetch and an
unchanged cache, and an uncached load records its result under the URL so every
later invocation hits the cache. -/
theorem gltfCache_spec (cache c' : Cache) (env env' : LoadEnv) (url u' : String)
    (e : CacheEntry) (hc : cache.lookup url = some e) (hm : c'.lookup u' = none) :
    useGzipGLTFStep cache env url = (e, cache, [])
    ∧ useGzipGLTFStep c' env' u'
        = ((loadGzipOnce env' u').1, (u', (loadGzipOnce env' u').1) :: c',
           (loadGzipOnce env' u').2)
    ∧ ((u', (loadGzipOnce env' u').1) :: c').lookup u' = some (loadGzipOnce env' u').1 := by
  refine ⟨?_, ?_, ?_⟩
  · simp [useGzipGLTFStep, hc]
  · simp [useGzipGLTFStep, hm]
  · simp [List.lookup]

/-- C9 witness: a cache already holding an error entry for a URL, and a miss
for a fresh URL against the concrete failing environment. -/
theorem gltfCache_spec_witness :
    useGzipGLTFStep [("u", { gltf := none, error := some ("boom") })] c1Env "u"
      = ({ gltf := none, error := some ("boom") },
         [("u", { gltf := none, error := some ("boom") })], [])
    ∧ useGzipGLTFStep [] c1Env "v"
        = ((loadGzipOnce c1Env "v").1, ("v", (loadGzipOnce c1Env "v").1) :: [],
           (loadGzipOnce c1Env "v").2)
    ∧ (("v", (loadGzipOnce c1Env "v").1) :: []).lookup "v"
        = some (loadGzipOnce c1Env "v").1 :=
  gltfCache_spec [("u", { gltf := none, error := some ("boom") })] [] c1Env c1Env "u" "v"
    { gltf := none, error := some ("boom") } (by simp [List.lookup]) rfl

/-- C1 counterexample: against c1Env the gzipped fetch of /Tent3.glb.gz
succeeds but decompression fails; useGzipGLTF surfaces only the error (no
GLTF) and the run fetches exactly the gzipped URL, never the original
uncompressed asset /Tent3.glb. -/
theorem useGzipGLTF_no_fallback_counterexample :
    (loadGzipOnce c1Env "/Tent3.glb.gz").1.error.isSome = true
    ∧ (loadGzipOnce c1Env "/Tent3.glb.gz").1.gltf = none
    ∧ (loadGzipOnce c1Env "/Tent3.glb.gz").2 = ["/Tent3.glb.gz"]
    ∧ "/Tent3.glb" ∉ (loadGzipOnce c1Env "/Tent3.glb.gz").2 := by
  refine ⟨rfl, rfl, rfl, ?_⟩
  decide

/-- C1 (corrected): only the HEAD-probe loader useOptimizedGLTF falls back to
the uncompressed asset URL when the probe of originalUrl + ".gz" throws or
returns non-ok; the gzip loader useGzipGLTF fetches exactly the URL it is
given and always ends in either a loaded GLTF or a surfaced error, with no
fallback fetch. -/
theorem asset_fallback_spec (probe : Except Err Response) (origUrl url : String)
    (env : LoadEnv) (hfail : ∀ r, probe = Except.ok r → r.ok = false) :
    tryGzippedVersion probe origUrl = origUrl
    ∧ (loadGzipOnce env url).2 = [url]
    ∧ ((loadGzipOnce env url).1.gltf.isSome = true
        ∨ (loadGzipOnce env url).1.error.isSome = true) := by
  refine ⟨?_, ?_, ?_⟩
  · cases probe with
    | error e => rfl
    | ok r =>
      have hr := hfail r rfl
      simp [tryGzippedVersion, hr]
  · unfold loadGzipOnce
    repeat' split
    all_goals rfl
  · unfold loadGzipOnce
    repeat' split
    all_goals simp

/-- C1 witness: a throwing probe falls back to the original URL, and the
concrete failing gzip environment surfaces an error after fetching only the
gzipped URL. -/
theorem asset_fallback_spec_witness :
    tryGzippedVersion (Except.error ("network error")) "/Tent3.glb" = "/Tent3.glb"
    ∧ (loadGzipOnce c1Env "/Tent3.glb.gz").2 = ["/Tent3.glb.gz"]
    ∧ ((loadGzipOnce c1Env "/Tent3.glb.gz").1.gltf.isSome = true
        ∨ (loadGzipOnce c1Env "/Tent3.glb.gz").1.error.isSome = true) :=
  asset_fallback_spec (Except.error ("network error")) "/Tent3.glb" "/Tent3.glb.gz" c1Env
    (fun _ h => nomatch h)

/-- Helper: a fold of applyEntry over entries that never mention a name leaves
that name's action untouched. -/
theorem foldl_applyEntry_not_mentioned (n : String) :
    ∀ (entries : List ScrubEntry) (acts0 : Actions),
      (∀ e ∈ entries, e.name ≠ n) → (entries.foldl applyEntry acts0) n = acts0 n := by
  intro entries
  induction entries with
  | nil => intro acts0 _; rfl
  | cons e t ih =>
    intro acts0 hn
    have hstep : applyEntry acts0 e n = acts0 n := by
      unfold applyEntry
      cases acts0 e.name with
      | none => rfl
      | some a =>
        have : n ≠ e.name := fun h => (hn e (List.mem_cons_self e t)) h.symm
        simp [this]
    calc ((e :: t).foldl applyEntry acts0) n
        = (t.foldl applyEntry (applyEntry acts0 e)) n := rfl
      _ = applyEntry acts0 e n := ih _ (fun x hx => hn x (List.mem_cons_of_mem e hx))
      _ = acts0 n := hstep

/-- C3 (confirmed): the frame loop sets the named action's time to
clamp(t, 0, 1) * clip.duration — a value in [0, clip.duration] — enabling,
weighting and pausing it; an entry naming an unknown action leaves the whole
actions record unchanged. -/
theorem scrub_time_clamped (acts acts' : Actions) (e e' : ScrubEntry) (a : AnimAction)
    (ha : acts e.name = some a) (hd : 0 ≤ a.duration) (hnone : acts' e'.name = none) :
    (applyEntry acts e) e.name
        = some { a with enabled := true, weight := 1, paused := true, playing := true,
                        time := clampQ e.t 0 1 * a.duration }
    ∧ 0 ≤ clampQ e.t 0 1 * a.duration
    ∧ clampQ e.t 0 1 * a.duration ≤ a.duration
    ∧ applyEntry acts' e' = acts' := by
  have hclamp0 : 0 ≤ clampQ e.t 0 1 := le_max_left _ _
  have hclamp1 : clampQ e.t 0 1 ≤ 1 := max_le (by norm_num) (min_le_left _ _)
  refine ⟨?_, mul_nonneg hclamp0 hd, ?_, ?_⟩
  · unfold applyEntry
    rw [ha]
    simp
  · calc clampQ e.t 0 1 * a.duration ≤ 1 * a.duration :=
          mul_le_mul_of_nonneg_right hclamp1 hd
      _ = a.duration := one_mul _
  · unfold applyEntry
    rw [hnone]

/-- C3 witness: one concrete actions record, a scrub entry with t = 5 landing
on a 2-second clip, and an entry for a missing action. -/
theorem scrub_time_clamped_witness :
    (applyEntry doorActs { name := "Door", t := 5 }) "Door"
      = some { enabled := true, weight := 1, paused := true, playing := true,
               time := clampQ 5 0 1 * 2, duration := 2 }
    ∧ (0 : ℚ) ≤ clampQ 5 0 1 * 2
    ∧ clampQ 5 0 1 * 2 ≤ 2
    ∧ applyEntry doorActs { name := "Ghost", t := 5 } = doorActs :=
  scrub_time_clamped doorActs doorActs
    { name := "Door", t := 5 } { name := "Ghost", t := 5 }
    { enabled := false, weight := 0, paused := false, playing := false,
      time := 0, duration := 2 }
    (by simp [doorActs]) (by norm_num) (by simp [doorActs])

/-- C10 (confirmed): the scroll handler dispatches no scrubs in section 8,
dispatches nonempty scrubs non-exclusively in section 6 and exclusively in
every other section; a non-exclusive application leaves every action not named
by the entries unchanged, while an exclusive one clears its enabled flag and
zeroes its weight. -/
theorem scrub_exclusivity_spec (scrubs entries : List ScrubEntry) (acts : Actions)
    (n : String) (cs : ℕ) (hne : scrubs.length ≠ 0)
    (hn : ∀ e ∈ entries, e.name ≠ n) (h8 : cs ≠ 8) (h6 : cs ≠ 6) :
    sendScrubs 8 scrubs = ScrubDispatch.noDispatch
    ∧ sendScrubs 6 scrubs = ScrubDispatch.scrubClips scrubs false
    ∧ sendScrubs cs scrubs = ScrubDispatch.scrubClips scrubs true
    ∧ applyScrub false entries acts n = acts n
    ∧ applyScrub true entries acts n
        = (acts n).map (fun a => { a with enabled := false, weight := 0 }) := by
  refine ⟨rfl, ?_, ?_, ?_, ?_⟩
  · simp [sendScrubs, hne]
  · simp [sendScrubs, hne, h8, h6]
  · exact foldl_applyEntry_not_mentioned n entries acts hn
  · exact foldl_applyEntry_not_mentioned n entries (disableAll acts) hn

/-- C10 witness: section 4 sends the BackWindow scrub exclusively, section 6
non-exclusively, and the Side action opened earlier survives a non-exclusive
application untouched. -/
theorem scrub_exclusivity_spec_witness :
    sendScrubs 8 [{ name := "BackWindow", t := 1/2 }] = ScrubDispatch.noDispatch
    ∧ sendScrubs 6 [{ name := "BackWindow", t := 1/2 }]
        = ScrubDispatch.scrubClips [{ name := "BackWindow", t := 1/2 }] false
    ∧ sendScrubs 4 [{ name := "BackWindow", t := 1/2 }]
        = ScrubDispatch.scrubClips [{ name := "BackWindow", t := 1/2 }] true
    ∧ applyScrub false [{ name := "BackWindow", t := 1/2 }] sideActs "Side"
        = sideActs "Side"
    ∧ applyScrub true [{ name := "BackWindow", t := 1/2 }] sideActs "Side"
        = (sideActs "Side").map (fun a => { a with enabled := false, weight := 0 }) :=
  scrub_exclusivity_spec [{ name := "BackWindow", t := 1/2 }]
    [{ name := "BackWindow", t := 1/2 }] sideActs
    "Side" 4 (by decide) (by decide) (by decide) (by decide)

/-- Helper: on a strictly increasing list, every element smaller than the one
find? returns fails the predicate. -/
theorem find?_earlier_false (f : ℕ → Bool) :
    ∀ (l : List ℕ), l.Pairwise (· < ·) → ∀ a, l.find? f = some a →
      ∀ x ∈ l, x < a → f x = false := by
  intro l
  induction l with
  | nil => intro _ a h; simp at h
  | cons b t ih =>
    intro hp a hf x hx hlt
    cases hb : f b with
    | false =>
      rw [List.find?_cons_of_neg _ (by simp [hb])] at hf
      rcases List.mem_cons.mp hx with rfl | hx'
      · exact hb
      · exact ih (List.Pairwise.of_cons hp) a hf x hx' hlt
    | true =>
      rw [List.find?_cons_of_pos _ hb] at hf
      injection hf with h
      subst h
      rcases List.mem_cons.mp hx with rfl | hx'
      · exact absurd hlt (lt_irrefl x)
      · exact absurd hlt (not_lt.mpr (le_of_lt ((List.pairwise_cons.mp hp).1 x hx')))

/-- C4 (confirmed): the current section is the lowest-numbered section among
1..8 whose progress lies in (0, 1] (0 when none qualifies), and the onScroll
bookkeeping dispatches a sectionChange carrying that section exactly when it
differs from the previously recorded one. -/
theorem currentSection_spec (p : ℕ → ℚ) (last : ℕ) :
    (currentSectionOf p = 0 ∨
      (1 ≤ currentSectionOf p ∧ currentSectionOf p ≤ 8
        ∧ 0 < p (currentSectionOf p) ∧ p (currentSectionOf p) ≤ 1))
    ∧ (∀ i, 1 ≤ i → i ≤ 8 → i < currentSectionOf p → ¬(0 < p i ∧ p i ≤ 1))
    ∧ (currentSectionOf p = 0 → ∀ i, 1 ≤ i → i ≤ 8 → ¬(0 < p i ∧ p i ≤ 1))
    ∧ (((sectionStep last p).2).isSome = true ↔ currentSectionOf p ≠ last)
    ∧ (∀ c, (sectionStep last p).2 = some c → c = currentSectionOf p)
    ∧ (sectionStep last p).1 = currentSectionOf p := by
  have hstep2 : ((sectionStep last p).2).isSome = true ↔ currentSectionOf p ≠ last := by
    simp only [sectionStep]
    split_ifs with h
    · simp [h]
    · simp [h]
  have hstep3 : ∀ c, (sectionStep last p).2 = some c → c = currentSectionOf p := by
    intro c hc
    simp only [sectionStep] at hc
    split_ifs at hc with h
    exact (Option.some_inj.mp hc).symm
  cases hf : ([1, 2, 3, 4, 5, 6, 7, 8].find? (sectionQualifies p)) with
  | none =>
    have hc : currentSectionOf p = 0 := by unfold currentSectionOf; rw [hf]; rfl
    have hnone := List.find?_eq_none.mp hf
    refine ⟨Or.inl hc, ?_, ?_, hstep2, hstep3, rfl⟩
    · intro i _ _ hlt
      rw [hc] at hlt
      omega
    · intro _ i h1 h8
      have hmem : i ∈ [1, 2, 3, 4, 5, 6, 7, 8] := by interval_cases i <;> simp
      have := hnone i hmem
      simpa [sectionQualifies] using this
  | some a =>
    have hc : currentSectionOf p = a := by unfold currentSectionOf; rw [hf]; rfl
    have ha : sectionQualifies p a = true := List.find?_some hf
    have hmem : a ∈ [1, 2, 3, 4, 5, 6, 7, 8] := List.mem_of_find?_eq_some hf
    have hqa : 0 < p a ∧ p a ≤ 1 := by simpa [sectionQualifies] using ha
    have hbounds : 1 ≤ a ∧ a ≤ 8 := by
      rcases (by simpa using hmem :
        a = 1 ∨ a = 2 ∨ a = 3 ∨ a = 4 ∨ a = 5 ∨ a = 6 ∨ a = 7 ∨ a = 8) with
        rfl | rfl | rfl | rfl | rfl | rfl | rfl | rfl <;> omega
    refine ⟨Or.inr ⟨by omega, by omega, by rw [hc]; exact hqa.1, by rw [hc]; exact hqa.2⟩,
      ?_, ?_, hstep2, hstep3, rfl⟩
    · intro i h1 h8 hlt
      rw [hc] at hlt
      have himem : i ∈ [1, 2, 3, 4, 5, 6, 7, 8] := by interval_cases i <;> simp
      have hfalse := find?_earlier_false (sectionQualifies p) [1, 2, 3, 4, 5, 6, 7, 8]
        (by decide) a hf i himem hlt
      simpa [sectionQualifies] using hfalse
    · intro h0
      rw [hc] at h0
      subst h0
      simp at hmem

/-- C4 witness: a progress snapshot where only section 3 is in view, against a
previously recorded section 0. -/
theorem currentSection_spec_witness :
    ¬(0 < witnessProgress 1 ∧ witnessProgress 1 ≤ 1)
    ∧ (((sectionStep 0 witnessProgress).2).isSome = true
        ↔ currentSectionOf witnessProgress ≠ 0)
    ∧ (1 ≤ currentSectionOf witnessProgress ∧ currentSectionOf witnessProgress ≤ 8
        ∧ 0 < witnessProgress (currentSectionOf witnessProgress)
        ∧ witnessProgress (currentSectionOf witnessProgress) ≤ 1) := by
  have h := currentSection_spec witnessProgress 0
  have hc : currentSectionOf witnessProgress = 3 := by
    norm_num [currentSectionOf, sectionQualifies, witnessProgress, List.find?]
  refine ⟨h.2.1 1 (by norm_num) (by norm_num) (by rw [hc]; norm_num), h.2.2.2.1, ?_⟩
  rcases h.1 with h0 | hq
  · rw [hc] at h0
    exact absurd h0 (by norm_num)
  · exact hq

/-- C5 (confirmed): flush dispatches a setCameraPose event exactly when no
pose was sent yet or the pose distance (position distance plus target
distance) from the last sent pose exceeds CAM_EPS = 0.005; an immediate
dispatch carries duration 0 and a non-immediate one carries
max(baseDuration, clamp(distance * 1.2, 0.6, 4.0)); flush consumes the single
pending pose, a flush with no pending pose dispatches nothing, and queueing
twice keeps only the newest pending pose for the scheduled frame. -/
theorem camQueue_flush_spec (s s' : CamQueueState) (pnd : PendingPose)
    (p1 p2 : Pose) (b1 b2 : Option ℝ) (i1 i2 : Bool)
    (hp : s.pending = some pnd) (hs' : s'.pending = none) :
    (((flush s).2).isSome = true ↔
      (s.lastSent = none ∨ ((CAM_EPS : ℝ) : EReal)
          < poseDistance (s.lastSent.map SentPose.pose) (some pnd.pose)))
    ∧ (∀ ev, (flush s).2 = some ev →
        ev.duration = (if pnd.immediate then (0 : EReal)
          else max ((pnd.baseDuration.getD 2 : ℝ) : EReal)
            (eclamp (poseDistance (s.lastSent.map SentPose.pose) (some pnd.pose)
                * ((CAM_DIST_TO_DUR : ℝ) : EReal))
              ((CAM_MIN_DUR : ℝ) : EReal) ((CAM_MAX_DUR : ℝ) : EReal)))
        ∧ ev.position = pnd.pose.position ∧ ev.target = pnd.pose.target
        ∧ ev.immediate = pnd.immediate)
    ∧ (flush s).1.pending = none
    ∧ (flush s').2 = none
    ∧ (queuePose (queuePose s p1 b1 i1) p2 b2 i2).pending
        = some { pose := p2, baseDuration := b2, immediate := i2 } := by
  obtain ⟨ls, pd, rf⟩ := s
  obtain ⟨ls', pd', rf'⟩ := s'
  have hp' : pd = some pnd := hp
  have hs'' : pd' = none := hs'
  subst hp'
  subst hs''
  by_cases hcond : ls = none ∨ ((CAM_EPS : ℝ) : EReal)
      < poseDistance (ls.map SentPose.pose) (some pnd.pose)
  · refine ⟨by simp [flush, hcond], ?_, by simp [flush, hcond], by simp [flush], rfl⟩
    intro ev hev
    simp only [flush, hcond, if_true, if_pos] at hev
    have hev' := (Option.some_inj.mp hev).symm
    subst hev'
    simp
  · refine ⟨by simp [flush, hcond], ?_, by simp [flush, hcond], by simp [flush], rfl⟩
    intro ev hev
    simp [flush, hcond] at hev

/-- C5 witness: an empty queue history with an immediate pending idle pose,
and a drained queue. -/
theorem camQueue_flush_spec_witness :
    (((flush witnessQueueState).2).isSome = true ↔
      (witnessQueueState.lastSent = none ∨ ((CAM_EPS : ℝ) : EReal)
          < poseDistance (witnessQueueState.lastSent.map SentPose.pose)
            (some witnessPending.pose)))
    ∧ (∀ ev, (flush witnessQueueState).2 = some ev →
        ev.duration = (if witnessPending.immediate then (0 : EReal)
          else max ((witnessPending.baseDuration.getD 2 : ℝ) : EReal)
            (eclamp (poseDistance (witnessQueueState.lastSent.map SentPose.pose)
                (some witnessPending.pose) * ((CAM_DIST_TO_DUR : ℝ) : EReal))
              ((CAM_MIN_DUR : ℝ) : EReal) ((CAM_MAX_DUR : ℝ) : EReal)))
        ∧ ev.position = witnessPending.pose.position
        ∧ ev.target = witnessPending.pose.target
        ∧ ev.immediate = witnessPending.immediate)
    ∧ (flush witnessQueueState).1.pending = none
    ∧ (flush emptyQueueState).2 = none
    ∧ (queuePose (queuePose witnessQueueState poseA (some 2) false)
        poseB (some 3) true).pending
        = some { pose := poseB, baseDuration := some 3, immediate := true } :=
  camQueue_flush_spec witnessQueueState emptyQueueState witnessPending
    poseA poseB (some 2) (some 3) false true rfl rfl

/-- Helper: the effective time constant is positive for every nonnegative
stored tau. -/
theorem effectiveTau_pos (tau : ℝ) (h : 0 ≤ tau) : 0 < effectiveTau tau := by
  unfold effectiveTau CAMERA_SMOOTH_DEFAULT
  split_ifs with h0
  · norm_num
  · exact lt_of_le_of_ne h (Ne.symm h0)

/-- Helper: the clamped frame delta is positive. -/
theorem clampedDt_pos (dt : ℝ) : 0 < clampedDt dt := by
  unfold clampedDt
  exact lt_min (by norm_num) (lt_of_lt_of_le (by norm_num) (le_max_left _ _))

/-- Helper: the base exponential-decay factor is positive for nonnegative tau. -/
theorem baseFactor_pos (dt tau : ℝ) (h : 0 ≤ tau) : 0 < baseFactor dt tau := by
  unfold baseFactor
  have hexp : Real.exp (-(clampedDt dt) / effectiveTau tau) < 1 := by
    rw [← Real.exp_zero]
    exact Real.exp_lt_exp.mpr
      (div_neg_of_neg_of_pos (neg_lt_zero.mpr (clampedDt_pos dt)) (effectiveTau_pos tau h))
  linarith

/-- Helper: lerping toward a target scales the distance to it by |1 - t|. -/
theorem lerp_distanceTo (p q : Vec3) (t : ℝ) :
    Vec3.distanceTo (Vec3.lerp p q t) q = |1 - t| * Vec3.distanceTo p q := by
  unfold Vec3.distanceTo Vec3.lerp
  have hsum : (p.x + (q.x - p.x) * t - q.x) ^ 2 + (p.y + (q.y - p.y) * t - q.y) ^ 2
      + (p.z + (q.z - p.z) * t - q.z) ^ 2
      = (1 - t) ^ 2 * ((p.x - q.x) ^ 2 + (p.y - q.y) ^ 2 + (p.z - q.z) ^ 2) := by
    ring
  simp only []
  rw [hsum, Real.sqrt_mul (sq_nonneg _), Real.sqrt_sq_eq_abs]

/-- C6 (confirmed): the rig's per-frame smoothing factor lies in (0, 0.15] for
every frame delta and every (nonnegative, hence every reachable) stored time
constant; the lerp therefore scales the distance to the desired pose by
1 - factor, never overshooting, and the distance is non-increasing from frame
to frame while the desired pose is unchanged; every tau the setCameraPose
handler installs is at least 0.2. -/
theorem cameraRig_smoothing_spec (dt tau d dt2 d2 dur : ℝ) (p q : Vec3)
    (h : 0 ≤ tau) :
    0 < smoothingFactor dt tau d
    ∧ smoothingFactor dt tau d ≤ 0.15
    ∧ Vec3.distanceTo (Vec3.lerp p q (smoothingFactor dt tau d)) q
        = (1 - smoothingFactor dt tau d) * Vec3.distanceTo p q
    ∧ Vec3.distanceTo (Vec3.lerp p q (smoothingFactor dt tau d)) q
        ≤ Vec3.distanceTo p q
    ∧ Vec3.distanceTo
        (Vec3.lerp (Vec3.lerp p q (smoothingFactor dt tau d)) q
          (smoothingFactor dt2 tau d2)) q
        ≤ Vec3.distanceTo (Vec3.lerp p q (smoothingFactor dt tau d)) q
    ∧ 0.2 ≤ onSetPoseTau dur := by
  have hbase := baseFactor_pos dt tau h
  have hpos : 0 < smoothingFactor dt tau d := by
    unfold smoothingFactor adaptiveFactor
    split_ifs with hd
    · exact lt_min hbase (by norm_num)
    · exact lt_min (by linarith) (by norm_num)
  have hle : smoothingFactor dt tau d ≤ 0.15 := min_le_right _ _
  have hstep : ∀ dtx dx, Vec3.distanceTo (Vec3.lerp p q (smoothingFactor dtx tau dx)) q
      = (1 - smoothingFactor dtx tau dx) * Vec3.distanceTo p q := by
    intro dtx dx
    rw [lerp_distanceTo]
    congr 1
    have hposx : 0 < smoothingFactor dtx tau dx := by
      unfold smoothingFactor adaptiveFactor
      have hbx := baseFactor_pos dtx tau h
      split_ifs with hdx
      · exact lt_min hbx (by norm_num)
      · exact lt_min (by linarith) (by norm_num)
    have hlex : smoothingFactor dtx tau dx ≤ 0.15 := min_le_right _ _
    rw [abs_of_nonneg (by linarith)]
  have hdist_nonneg : ∀ a b : Vec3, 0 ≤ Vec3.distanceTo a b := by
    intro a b
    exact Real.sqrt_nonneg _
  have hshrink : ∀ (a b : Vec3) (dtx dx : ℝ),
      Vec3.distanceTo (Vec3.lerp a b (smoothingFactor dtx tau dx)) b
        ≤ Vec3.distanceTo a b := by
    intro a b dtx dx
    rw [lerp_distanceTo]
    have hposx : 0 < smoothingFactor dtx tau dx := by
      unfold smoothingFactor adaptiveFactor
      have hbx := baseFactor_pos dtx tau h
      split_ifs with hdx
      · exact lt_min hbx (by norm_num)
      · exact lt_min (by linarith) (by norm_num)
    have hlex : smoothingFactor dtx tau dx ≤ 0.15 := min_le_right _ _
    calc |1 - smoothingFactor dtx tau dx| * Vec3.distanceTo a b
        ≤ 1 * Vec3.distanceTo a b := by
          apply mul_le_mul_of_nonneg_right _ (hdist_nonneg a b)
          rw [abs_of_nonneg (by linarith)]
          linarith
      _ = Vec3.distanceTo a b := one_mul _
  exact ⟨hpos, hle, hstep dt d, hshrink p q dt d, hshrink _ q dt2 d2,
    le_max_left _ _⟩

/-- C6 witness: a 16 ms frame against the default 1.2 s time constant, moving
from (1,0,0) toward the origin. -/
theorem cameraRig_smoothing_spec_witness :
    0 < smoothingFactor 0.016 1.2 0
    ∧ smoothingFactor 0.016 1.2 0 ≤ 0.15
    ∧ Vec3.distanceTo
        (Vec3.lerp { x := 1, y := 0, z := 0 } { x := 0, y := 0, z := 0 }
          (smoothingFactor 0.016 1.2 0)) { x := 0, y := 0, z := 0 }
        = (1 - smoothingFactor 0.016 1.2 0)
            * Vec3.distanceTo { x := 1, y := 0, z := 0 } { x := 0, y := 0, z := 0 }
    ∧ Vec3.distanceTo
        (Vec3.lerp { x := 1, y := 0, z := 0 } { x := 0, y := 0, z := 0 }
          (smoothingFactor 0.016 1.2 0)) { x := 0, y := 0, z := 0 }
        ≤ Vec3.distanceTo { x := 1, y := 0, z := 0 } { x := 0, y := 0, z := 0 }
    ∧ Vec3.distanceTo
        (Vec3.lerp
          (Vec3.lerp { x := 1, y := 0, z := 0 } { x := 0, y := 0, z := 0 }
            (smoothingFactor 0.016 1.2 0))
          { x := 0, y := 0, z := 0 } (smoothingFactor 0.02 1.2 1)) { x := 0, y := 0, z := 0 }
        ≤ Vec3.distanceTo
            (Vec3.lerp { x := 1, y := 0, z := 0 } { x := 0, y := 0, z := 0 }
              (smoothingFactor 0.016 1.2 0)) { x := 0, y := 0, z := 0 }
    ∧ 0.2 ≤ onSetPoseTau 3.5 :=
  cameraRig_smoothing_spec 0.016 1.2 0 0.02 1 3.5
    { x := 1, y := 0, z := 0 } { x := 0, y := 0, z := 0 } (by norm_num)

end Madix
